import Mathlib

/-!
# Verification of the go-xbee XBee ZigBee API-frame driver

Shallow embedding of the driver's frame codec, reader-task classification and
dispatch, frame-id allocator, gathering loops (node discovery, active scan) and
typed operation facade, translated from the Go source (package `xbee`).

Machine bytes are modelled as `Nat` values; Go's wrapping byte arithmetic is
made explicit with `% 256`, and `uint64` wrap-around with `% 2^64`.  Go code
that can panic on an out-of-range index is modelled with `Option`: a `none`
result marks a run-time index-out-of-range fault.  Fallible operations return
their data together with an `Option XErr`, mirroring Go's `(value, error)`
pairs (`[]` stands for a `nil` byte slice).
-/

namespace XBeeModel

/-- Frame kind constants from the source (`frameDelimiter` .. `frameZigBeeReceivePacket`). -/
def frameDelimiter : Nat := 0x7e

/-- AT command (immediate) outbound frame kind, `0x08`. -/
def frameATCommand : Nat := 0x08

/-- ZigBee transmit request outbound frame kind, `0x10`. -/
def frameZigBeeTransmitRequest : Nat := 0x10

/-- AT command response inbound frame kind, `0x88`. -/
def frameATCommandResponse : Nat := 0x88

/-- Modem status inbound frame kind, `0x8a`. -/
def frameModemStatus : Nat := 0x8a

/-- ZigBee transmit status inbound frame kind, `0x8b`. -/
def frameZigBeeTransmitStatus : Nat := 0x8b

/-- ZigBee receive packet inbound frame kind, `0x90`. -/
def frameZigBeeReceivePacket : Nat := 0x90

/-- Two-ASCII-byte AT command identifier (`type ATCommand [2]byte`). -/
structure ATCommand where
  c0 : Nat
  c1 : Nat
deriving DecidableEq, Repr

/-- `atSerialNumberHigh = "SH"`. -/
def atSerialNumberHigh : ATCommand := ⟨83, 72⟩

/-- `atSerialNumberLow = "SL"`. -/
def atSerialNumberLow : ATCommand := ⟨83, 76⟩

/-- `atAPIEnable = "AP"`. -/
def atAPIEnable : ATCommand := ⟨65, 80⟩

/-- `atInterfaceDataRate = "BD"`. -/
def atInterfaceDataRate : ATCommand := ⟨66, 68⟩

/-- `atNodeDiscover = "ND"`. -/
def atNodeDiscover : ATCommand := ⟨78, 68⟩

/-- `atActiveScan = "AS"`. -/
def atActiveScan : ATCommand := ⟨65, 83⟩

/-- `var standardDataRates = []int{1200, 2400, 4800, 9600, 19200, 38400, 57600, 115200}`. -/
def standardDataRates : List Nat := [1200, 2400, 4800, 9600, 19200, 38400, 57600, 115200]

/-- Error kinds produced by the driver (source: `errors.New` / `fmt.Errorf` values). -/
inductive XErr where
  /-- `xbee: expected AT command response cmd .. got ..` -/
  | mismatch (want got : ATCommand)
  /-- `ErrResponse` — generic error response (status 1). -/
  | response
  /-- `ErrInvalidCommand` (status 2), carrying the AT pair. -/
  | invalidCommand (c : ATCommand)
  /-- `ErrInvalidParameter` (status 3). -/
  | invalidParameter
  /-- `xbee: unknown error %d` for any other non-zero status. -/
  | unknownStatus (s : Nat)
  /-- `xbee: wrong frame, expected AT response got %T`. -/
  | wrongFrame
  /-- Size error: value/data too long for the frame (`value too long` / `data too long`). -/
  | tooLong (n : Nat)
  /-- Shape error: response data has an unexpected length (carries the length seen). -/
  | shape (n : Nat)
  /-- `xbee.NodeDiscover: null terminator not found for node identifier`. -/
  | noNullTerminator
  /-- Underlying byte-stream write failure. -/
  | ioError
deriving DecidableEq, Repr

/-- Wrapping byte sum: Go's `var checksum byte; for _, v := range .. { checksum += v }`. -/
def sum8 (l : List Nat) : Nat :=
  l.foldl (fun a v => (a + v) % 256) 0

/-- Encoded frame bytes written by `writeFrame` for a payload of `n` bytes placed
at `wbuf[3:3+n]`: delimiter, big-endian length, payload, checksum `0xff - sum`. -/
def encodeFrame (payload : List Nat) : List Nat :=
  frameDelimiter :: ((payload.length >>> 8) % 256) :: (payload.length % 256) ::
    (payload ++ [255 - sum8 payload])

/-- `func (xb *XBee) writeFrame(n int) error`: rejects `n > 65535`, otherwise
writes the `4 + n` frame bytes to the port.  `some bytes` is the successful
write; `none` is the size error (nothing written). -/
def writeFrame (payload : List Nat) : Option (List Nat) :=
  if payload.length > 65535 then none else some (encodeFrame payload)

/-- Single-frame decode step of `readLoop` (delimiter check, big-endian length,
`io.ReadFull` of `frameLen+1` bytes, checksum validation, tiny-frame guard,
checksum byte stripped).  `none` covers every dropped/failed frame: wrong
delimiter, truncated input, bad checksum, or `frameLen < 2` (tiny frame). -/
def decodeFrame (s : List Nat) : Option (List Nat) :=
  match s with
  | b :: hi :: lo :: rest =>
    if b = frameDelimiter then
      if (rest.take (hi * 256 + lo + 1)).length < hi * 256 + lo + 1 then none
      else if sum8 (rest.take (hi * 256 + lo + 1)) ≠ 255 then none
      else if hi * 256 + lo < 2 then none
      else some ((rest.take (hi * 256 + lo + 1)).take (hi * 256 + lo))
    else none
  | _ => none

/-- `func decodeUint(b []byte) uint64`: big-endian fold `v = (v << 8) | b`
with `uint64` wrap-around. -/
def decodeUint (b : List Nat) : Nat :=
  b.foldl (fun v x => ((v <<< 8) % 18446744073709551616) ||| (x % 256)) 0

/-- `binary.BigEndian.Uint32` over a 4-byte slice. -/
def uint32BE (b : List Nat) : Nat :=
  ((b.getD 0 0 % 256) <<< 24) ||| ((b.getD 1 0 % 256) <<< 16) |||
    ((b.getD 2 0 % 256) <<< 8) ||| (b.getD 3 0 % 256)

/-- `func (xb *XBee) nextFrameID() byte`: increment the 8-bit counter, skip 0.
Returns `(new counter state, returned id)`; in the source both coincide. -/
def nextFrameID (frameID : Nat) : Nat × Nat :=
  if (frameID + 1) % 256 = 0 then (1, 1)
  else ((frameID + 1) % 256, (frameID + 1) % 256)

/-- Value of the `i`-th call to `nextFrameID` starting from the zero-initialised
counter of a fresh `XBee` (call 0 is the first allocation). -/
def idAt : Nat → Nat
  | 0 => (nextFrameID 0).2
  | n + 1 => (nextFrameID (idAt n)).2

/-- `type ATCommandResponse struct`. -/
structure ATCommandResponse where
  command : ATCommand
  commandStatus : Nat
  data : List Nat
deriving DecidableEq, Repr

/-- `type TransmitStatus struct`. -/
structure TransmitStatus where
  destinationAddress : Nat
  retryCount : Nat
  deliveryStatus : Nat
  discoveryStatus : Nat
deriving DecidableEq, Repr

/-- `type ReceivePacket struct`. -/
structure ReceivePacket where
  sourceAddress : Nat
  sourceAddress16 : Nat
  receiveOptions : Nat
  data : List Nat
deriving DecidableEq, Repr

/-- `type Event interface{}`: the closed set of event values the reader produces. -/
inductive Event where
  | modemStatus (s : Nat)
  | atResponse (r : ATCommandResponse)
  | transmitStatus (t : TransmitStatus)
  | receivePacket (p : ReceivePacket)
  | unknownFrame (raw : List Nat)
deriving DecidableEq, Repr

/-- Classification switch of `readLoop` over a checksum-valid payload `buf`
(checksum byte already stripped).  Produces `(frameID, event)`; `frameID` stays
`0` for kinds that carry none.  Every index into `buf` is the source's `buf[i]`
or `buf[i:]`; a `none` result marks the run-time index-out-of-range fault Go
would raise there. -/
def classify (buf : List Nat) : Option (Nat × Event) :=
  match buf.get? 0 with
  | none => none
  | some b0 =>
    if b0 = frameModemStatus then
      match buf.get? 1 with
      | some s => some (0, .modemStatus s)
      | none => none
    else if b0 = frameATCommandResponse then
      match buf.get? 1, buf.get? 2, buf.get? 3, buf.get? 4 with
      | some fid, some c0, some c1, some st =>
        some (fid, .atResponse ⟨⟨c0, c1⟩, st, buf.drop 5⟩)
      | _, _, _, _ => none
    else if b0 = frameZigBeeTransmitStatus then
      match buf.get? 1, buf.get? 2, buf.get? 3, buf.get? 4, buf.get? 5, buf.get? 6 with
      | some fid, some d0, some d1, some r, some ds, some dis =>
        some (fid, .transmitStatus ⟨(d0 <<< 8) ||| d1, r, ds, dis⟩)
      | _, _, _, _, _, _ => none
    else if b0 = frameZigBeeReceivePacket then
      match buf.get? 1, buf.get? 2, buf.get? 3, buf.get? 4, buf.get? 5, buf.get? 6,
            buf.get? 7, buf.get? 8, buf.get? 9, buf.get? 10, buf.get? 11 with
      | some a1, some a2, some a3, some a4, some a5, some a6, some a7, some a8,
          some n0, some n1, some ro =>
        some (0, .receivePacket
          ⟨(a1 <<< 56) ||| (a2 <<< 48) ||| (a3 <<< 40) ||| (a4 <<< 32) |||
             (a5 <<< 24) ||| (a6 <<< 16) ||| (a7 <<< 8) ||| a8,
           (n0 <<< 8) ||| n1, ro, buf.drop 12⟩)
      | _, _, _, _, _, _, _, _, _, _, _ => none
    else some (0, .unknownFrame buf)

/-- Delivery destination of a classified event. -/
inductive Dest where
  | waiter (id : Nat)
  | global
deriving DecidableEq, Repr

/-- Dispatch step of `readLoop`: look the frame id up in `idMap` only when it is
non-zero; deliver to the registered waiter channel if one exists, otherwise to
the global event channel.  `waiters k = true` models `idMap[k] != nil`. -/
def dispatchDest (waiters : Nat → Bool) (frameID : Nat) : Dest :=
  if frameID ≠ 0 ∧ waiters frameID = true then .waiter frameID else .global

/-- `func validateATResponse(cmd ATCommand, res *ATCommandResponse) error`. -/
def validateATResponse (cmd : ATCommand) (res : ATCommandResponse) : Option XErr :=
  if res.command ≠ cmd then some (.mismatch cmd res.command)
  else
    match res.commandStatus with
    | 0 => none
    | 1 => some .response
    | 2 => some (.invalidCommand cmd)
    | 3 => some .invalidParameter
    | s => some (.unknownStatus s)

/-- Outcome of one facade call: updated frame-id counter, the frames written to
the byte stream (in order), the returned value, and the returned error
(`[]`/zero value stands for Go's `nil` result on the error paths). -/
structure CallResult (α : Type) where
  frameID : Nat
  writes : List (List Nat)
  value : α
  err : Option XErr
deriving DecidableEq, Repr

/-- `func (xb *XBee) atCommand(cmd ATCommand, val []byte) ([]byte, error)`:
size-check the parameter, allocate a frame id, write the AT request frame,
await the waiter's event `ev` (supplied by the environment), demand an AT
command response, validate it, and return its data. -/
def atCommand (frameID : Nat) (cmd : ATCommand) (val : List Nat) (ev : Event) :
    CallResult (List Nat) :=
  if val.length > 65536 - 8 then ⟨frameID, [], [], some (.tooLong val.length)⟩
  else
    let fid := (nextFrameID frameID).2
    match writeFrame ([frameATCommand, fid, cmd.c0, cmd.c1] ++ val) with
    | none => ⟨fid, [], [], some .ioError⟩
    | some w =>
      match ev with
      | .atResponse res =>
        match validateATResponse cmd res with
        | some e => ⟨fid, [w], [], some e⟩
        | none => ⟨fid, [w], res.data, none⟩
      | _ => ⟨fid, [w], [], some .wrongFrame⟩

/-- `func (xb *XBee) SerialNumber() (uint64, error)`: issue `SH` then `SL`,
require 4-byte data from each, combine `(SH << 32) | SL`.  `ev1`/`ev2` are the
events the two waiters receive. -/
def SerialNumber (frameID : Nat) (ev1 ev2 : Event) : CallResult Nat :=
  let r1 := atCommand frameID atSerialNumberHigh [] ev1
  match r1.err with
  | some e => ⟨r1.frameID, r1.writes, 0, some e⟩
  | none =>
    if r1.value.length ≠ 4 then ⟨r1.frameID, r1.writes, 0, some (.shape r1.value.length)⟩
    else
      let serial := (uint32BE r1.value) <<< 32
      let r2 := atCommand r1.frameID atSerialNumberLow [] ev2
      match r2.err with
      | some e => ⟨r2.frameID, r1.writes ++ r2.writes, 0, some e⟩
      | none =>
        if r2.value.length ≠ 4 then
          ⟨r2.frameID, r1.writes ++ r2.writes, 0, some (.shape r2.value.length)⟩
        else ⟨r2.frameID, r1.writes ++ r2.writes, serial ||| uint32BE r2.value, none⟩

/-- `func (xb *XBee) InterfaceDataRate() (int, error)`: decode the response
value; map values `≤ 7` through `standardDataRates`, return larger values as-is. -/
def InterfaceDataRate (frameID : Nat) (ev : Event) : CallResult Nat :=
  let r := atCommand frameID atInterfaceDataRate [] ev
  match r.err with
  | some e => ⟨r.frameID, r.writes, 0, some e⟩
  | none =>
    let rate := decodeUint r.value
    if rate ≤ 7 then ⟨r.frameID, r.writes, standardDataRates.getD rate 0, none⟩
    else ⟨r.frameID, r.writes, rate, none⟩

/-- `func (xb *XBee) APIEnabled() (escaped bool, err error)`: the source reads
`b[0]` unconditionally (`return b[0] == 2, err`); `none` marks the
index-out-of-range fault when the data slice is `nil`/empty. -/
def APIEnabled (frameID : Nat) (ev : Event) : Option (CallResult Bool) :=
  let r := atCommand frameID atAPIEnable [] ev
  match r.value.get? 0 with
  | none => none
  | some b => some ⟨r.frameID, r.writes, b == 2, r.err⟩

/-- `func (xb *XBee) Transmit(dest, net, broadcastRadius, options, data) error`:
size-check the data (`> 65536-20` is the size error, nothing written), then
build the 14-byte ZigBee transmit request header plus data and write the frame.
The transmit-status listener is commented out in the source: fire-and-forget. -/
def Transmit (frameID : Nat) (dest net broadcastRadius options : Nat)
    (data : List Nat) : CallResult Unit :=
  if data.length > 65536 - 20 then ⟨frameID, [], (), some (.tooLong data.length)⟩
  else
    let fid := (nextFrameID frameID).2
    match writeFrame ([frameZigBeeTransmitRequest, fid,
        (dest >>> 56) % 256, (dest >>> 48) % 256, (dest >>> 40) % 256, (dest >>> 32) % 256,
        (dest >>> 24) % 256, (dest >>> 16) % 256, (dest >>> 8) % 256, dest % 256,
        (net >>> 8) % 256, net % 256, broadcastRadius, options] ++ data) with
    | none => ⟨fid, [], (), some .ioError⟩
    | some w => ⟨fid, [w], (), none⟩

/-- `type Node struct` (node identifier kept as its raw bytes). -/
structure Node where
  serialNumber : Nat
  nodeID : List Nat
  parentNetworkAddress : Nat
  deviceType : Nat
  status : Nat
  profileID : Nat
  manufacturerID : Nat
deriving DecidableEq, Repr

/-- Record parsing of one `NodeDiscover` response (`res.Data`): 18-byte minimum,
serial from bytes 2..10, NUL-terminated node identifier from byte 10 on, then
eight fixed-offset trailing bytes.  `some (.error e)` is a returned error,
`some (.ok n)` a parsed node, and `none` the index-out-of-range fault raised
when fewer than 8 bytes remain after the NUL. -/
def parseNode (data : List Nat) : Option (Except XErr Node) :=
  if data.length < 18 then some (.error (.shape data.length))
  else
    let serial := decodeUint ((data.drop 2).take 8)
    let d := data.drop 10
    match List.findIdx? (fun b => b = 0) d with
    | none => some (.error .noNullTerminator)
    | some ix =>
      let d2 := d.drop (ix + 1)
      match d2.get? 0, d2.get? 1, d2.get? 2, d2.get? 3,
            d2.get? 4, d2.get? 5, d2.get? 6, d2.get? 7 with
      | some a0, some a1, some a2, some a3, some a4, some a5, some a6, some a7 =>
        some (.ok ⟨serial, d.take ix, (a0 <<< 8) ||| a1, a2, a3,
          (a4 <<< 8) ||| a5, (a6 <<< 8) ||| a7⟩)
      | _, _, _, _, _, _, _, _ => none

/-- `type ActiveScanDevice struct` (`rssi` is Go's `int8` conversion). -/
structure ActiveScanDevice where
  type : Nat
  channel : Nat
  pan : Nat
  extendedPAN : Nat
  allowJoin : Bool
  stackProfile : Nat
  lqi : Nat
  rssi : Int
deriving DecidableEq, Repr

/-- Record parsing of one `ActiveScan` response: 16-byte minimum, then fixed
offsets 0..15 (all in range once the guard passes). -/
def parseScanDevice (data : List Nat) : Except XErr ActiveScanDevice :=
  if data.length < 16 then .error (.shape data.length)
  else .ok
    { type := data.getD 0 0
      channel := data.getD 1 0
      pan := decodeUint ((data.drop 2).take 2)
      extendedPAN := decodeUint ((data.drop 4).take 8)
      allowJoin := data.getD 12 0 ≠ 0
      stackProfile := data.getD 13 0
      lqi := data.getD 14 0
      rssi := if data.getD 15 0 < 128 then (data.getD 15 0 : Int)
              else (data.getD 15 0 : Int) - 256 }

/-- Gathering loop of `func (xb *XBee) NodeDiscover(wait)` over the finite list
of events the waiter receives before the deadline fires (end of list = deadline).
On deadline return `(nodes, nil)`; on a non-AT-response event return
`(nil, error)` (the source's `return nil, ...`); on a validation or record
error return the accumulated `(nodes, error)`; `none` is the record-parsing
index fault. -/
def nodeDiscoverLoop : List Event → List Node → Option (List Node × Option XErr)
  | [], nodes => some (nodes, none)
  | ev :: rest, nodes =>
    match ev with
    | .atResponse res =>
      match validateATResponse atNodeDiscover res with
      | some e => some (nodes, some e)
      | none =>
        match parseNode res.data with
        | none => none
        | some (.error e) => some (nodes, some e)
        | some (.ok n) => nodeDiscoverLoop rest (nodes ++ [n])
    | _ => some ([], some .wrongFrame)

/-- Gathering loop of `func (xb *XBee) ActiveScan(wait)`, same shape as
`nodeDiscoverLoop`; record parsing cannot fault here. -/
def activeScanLoop : List Event → List ActiveScanDevice →
    List ActiveScanDevice × Option XErr
  | [], devices => (devices, none)
  | ev :: rest, devices =>
    match ev with
    | .atResponse res =>
      match validateATResponse atActiveScan res with
      | some e => (devices, some e)
      | none =>
        match parseScanDevice res.data with
        | .error e => (devices, some e)
        | .ok d => activeScanLoop rest (devices ++ [d])
    | _ => ([], some .wrongFrame)

/-- Event accepted and parsed into node `n` by the `NodeDiscover` loop. -/
def goodNDEvent (ev : Event) (n : Node) : Prop :=
  ∃ res, ev = .atResponse res ∧ validateATResponse atNodeDiscover res = none ∧
    parseNode res.data = some (.ok n)

/-- AT-response event on which the `NodeDiscover` loop stops with error `e`
(validation failure or malformed record). -/
def badNDEvent (ev : Event) (e : XErr) : Prop :=
  ∃ res, ev = .atResponse res ∧
    (validateATResponse atNodeDiscover res = some e ∨
      (validateATResponse atNodeDiscover res = none ∧ parseNode res.data = some (.error e)))

/-- Event accepted and parsed into device `d` by the `ActiveScan` loop. -/
def goodASEvent (ev : Event) (d : ActiveScanDevice) : Prop :=
  ∃ res, ev = .atResponse res ∧ validateATResponse atActiveScan res = none ∧
    parseScanDevice res.data = .ok d

/-- AT-response event on which the `ActiveScan` loop stops with error `e`. -/
def badASEvent (ev : Event) (e : XErr) : Prop :=
  ∃ res, ev = .atResponse res ∧
    (validateATResponse atActiveScan res = some e ∨
      (validateATResponse atActiveScan res = none ∧ parseScanDevice res.data = .error e))

/-- Sample 20-byte node-discovery record: zero serial, node id `"A"` (NUL at
offset 11), parent `1`, type `0`, status `0`, profile `1`, manufacturer `2`. -/
def sampleNDData : List Nat :=
  [0, 0, 0, 0, 0, 0, 0, 0, 0, 0, 65, 0, 0, 1, 0, 0, 0, 1, 0, 2]

/-- Node parsed from `sampleNDData`. -/
def sampleNode : Node := ⟨0, [65], 1, 0, 0, 1, 2⟩

/-- Sample 18-byte node-discovery record passing the 18-byte minimum check but
whose NUL terminator (at offset 16) leaves only one trailing byte, fewer than
the 8 the fixed-offset field reads require. -/
def sampleShortNDData : List Nat :=
  [0, 0, 0, 0, 0, 0, 0, 0, 0, 0, 65, 66, 67, 68, 69, 70, 0, 99]

/-! ## Helper lemmas -/

/-- `writeFrame` succeeds on payloads up to 65535 bytes. -/
theorem writeFrame_ok (p : List Nat) (h : p.length ≤ 65535) :
    writeFrame p = some (encodeFrame p) := by
  rw [writeFrame, if_neg (by omega)]

/-- Encoded frames carry 4 bytes of envelope. -/
theorem encodeFrame_length (p : List Nat) : (encodeFrame p).length = p.length + 4 := by
  simp [encodeFrame]

/-- Behaviour of `atCommand` with no parameter bytes on a matching OK response:
one frame written, the response data returned. -/
theorem atCommand_ok (frameID : Nat) (cmd : ATCommand) (d : List Nat) :
    atCommand frameID cmd [] (.atResponse ⟨cmd, 0, d⟩) =
      ⟨(nextFrameID frameID).2,
       [encodeFrame [frameATCommand, (nextFrameID frameID).2, cmd.c0, cmd.c1]], d, none⟩ := by
  simp only [atCommand]
  rw [if_neg (by simp)]
  rw [List.append_nil]
  rw [writeFrame_ok _ (by simp)]
  simp [validateATResponse]

/-- Folding the wrapping byte sum from any byte-sized accumulator stays byte-sized. -/
theorem sum8_foldl_lt (l : List Nat) (a : Nat) (h : a < 256) :
    l.foldl (fun a v => (a + v) % 256) a < 256 := by
  induction l generalizing a with
  | nil => simpa using h
  | cons x xs ih => exact ih _ (Nat.mod_lt _ (by norm_num))

/-- Wrapping byte sums are bytes. -/
theorem sum8_lt (l : List Nat) : sum8 l < 256 :=
  sum8_foldl_lt l 0 (by norm_num)

/-- Folding the wrapping byte sum computes the plain sum modulo 256. -/
theorem sum8_foldl_eq (l : List Nat) (a : Nat) (h : a < 256) :
    l.foldl (fun a v => (a + v) % 256) a = (a + l.sum) % 256 := by
  induction l generalizing a with
  | nil => simp [Nat.mod_eq_of_lt h]
  | cons x xs ih =>
    simp only [List.foldl_cons, List.sum_cons]
    rw [ih _ (Nat.mod_lt _ (by norm_num))]
    conv_rhs => rw [← Nat.add_assoc, ← Nat.mod_add_mod]

/-- Wrapping byte sum as the plain sum modulo 256. -/
theorem sum8_eq_sum_mod (l : List Nat) : sum8 l = l.sum % 256 := by
  simpa using sum8_foldl_eq l 0 (by norm_num)

/-! ## C1 — frame encode/decode round-trip -/

/-- C1 (counterexample): the claim fails at the 1-byte payload `[0]` — the
encoded frame passes the checksum but the reader discards it as a tiny frame
(`frameLen < 2`), so decoding does not yield the payload back. -/
theorem decode_encode_len1_cex : decodeFrame (encodeFrame [0]) ≠ some [0] := by decide

/-- C1 (amended): for every payload `P` with `1 ≤ |P| ≤ 65535`, `writeFrame`'s
encoding is delimiter, big-endian length, payload, checksum `0xFF - sum`, and
the encoded bytes satisfy `(sum P + checksum) % 256 = 0xFF`; decoding the
encoded frame yields `P` back whenever `2 ≤ |P|`, while a 1-byte payload is
checksum-valid but discarded by the reader as a tiny frame. -/
theorem encode_decode_roundtrip (P : List Nat) (h1 : 1 ≤ P.length)
    (h2 : P.length ≤ 65535) :
    ∃ ck, encodeFrame P =
        frameDelimiter :: ((P.length >>> 8) % 256) :: (P.length % 256) :: (P ++ [ck]) ∧
      (P.sum + ck) % 256 = 255 ∧
      (2 ≤ P.length → decodeFrame (encodeFrame P) = some P) ∧
      (P.length = 1 → decodeFrame (encodeFrame P) = none) := by
  have hs := sum8_eq_sum_mod P
  have hlt := sum8_lt P
  have hL : ((P.length >>> 8) % 256) * 256 + P.length % 256 = P.length := by
    rw [Nat.shiftRight_eq_div_pow P.length 8]
    have hdiv : P.length / 2 ^ 8 < 256 := by omega
    rw [Nat.mod_eq_of_lt hdiv]
    omega
  have hck : (P.sum + (255 - sum8 P)) % 256 = 255 := by omega
  have htake : (P ++ [255 - sum8 P]).take (P.length + 1) = P ++ [255 - sum8 P] :=
    List.take_of_length_le (by simp)
  have hsumv : sum8 (P ++ [255 - sum8 P]) = 255 := by
    rw [sum8_eq_sum_mod, List.sum_append, List.sum_singleton]
    omega
  refine ⟨255 - sum8 P, rfl, hck, ?_, ?_⟩
  · intro hge
    simp only [encodeFrame, decodeFrame, hL, htake, if_true]
    rw [if_neg (by simp), if_neg (by simp [hsumv]), if_neg (by omega)]
    simp [List.take_left P [255 - sum8 P]]
  · intro hone
    simp only [encodeFrame, decodeFrame, hL, htake, if_true]
    rw [if_neg (by simp), if_neg (by simp [hsumv]), if_pos (by omega)]

/-- C1 (witness): the amended round-trip at the concrete payload `[1, 2]`. -/
theorem encode_decode_roundtrip_witness :
    decodeFrame (encodeFrame [1, 2]) = some [1, 2] := by
  obtain ⟨ck, _, _, h, _⟩ := encode_decode_roundtrip [1, 2] (by decide) (by decide)
  exact h (by decide)

/-! ## C2 — reader-task dispatch routing -/

/-- C2: for every checksum-valid classified frame, an AT command response with
non-zero frame id `k` and a registered waiter `k` is dispatched to waiter `k`
(so not to the global channel); an AT command response whose frame id has no
registered waiter goes to the global channel; and a modem status or receive
packet frame always carries frame id `0` and goes to the global channel
regardless of registered waiters. -/
theorem readLoop_dispatch (waiters : Nat → Bool) :
    (∀ k c0 c1 st d, k ≠ 0 → waiters k = true →
      classify (frameATCommandResponse :: k :: c0 :: c1 :: st :: d) =
          some (k, .atResponse ⟨⟨c0, c1⟩, st, d⟩) ∧
        dispatchDest waiters k = .waiter k) ∧
    (∀ k c0 c1 st d, waiters k = false →
      classify (frameATCommandResponse :: k :: c0 :: c1 :: st :: d) =
          some (k, .atResponse ⟨⟨c0, c1⟩, st, d⟩) ∧
        dispatchDest waiters k = .global) ∧
    (∀ s rest, classify (frameModemStatus :: s :: rest) = some (0, .modemStatus s) ∧
      dispatchDest waiters 0 = .global) ∧
    (∀ a1 a2 a3 a4 a5 a6 a7 a8 n0 n1 ro d,
      classify (frameZigBeeReceivePacket :: a1 :: a2 :: a3 :: a4 :: a5 :: a6 :: a7 :: a8 ::
          n0 :: n1 :: ro :: d) =
        some (0, .receivePacket
          ⟨(a1 <<< 56) ||| (a2 <<< 48) ||| (a3 <<< 40) ||| (a4 <<< 32) |||
             (a5 <<< 24) ||| (a6 <<< 16) ||| (a7 <<< 8) ||| a8,
           (n0 <<< 8) ||| n1, ro, d⟩) ∧
      dispatchDest waiters 0 = .global) := by
  refine ⟨?_, ?_, ?_, ?_⟩
  · intro k c0 c1 st d hk hw
    exact ⟨rfl, by simp [dispatchDest, hk, hw]⟩
  · intro k c0 c1 st d hw
    exact ⟨rfl, by simp [dispatchDest, hw]⟩
  · intro s rest
    exact ⟨rfl, by simp [dispatchDest]⟩
  · intro a1 a2 a3 a4 a5 a6 a7 a8 n0 n1 ro d
    exact ⟨rfl, by simp [dispatchDest]⟩

/-- C2 (witness): with only waiter 3 registered, an AT response with frame id 3
is routed to waiter 3, and a modem status frame goes to the global channel. -/
theorem readLoop_dispatch_witness :
    (classify (frameATCommandResponse :: 3 :: 83 :: 72 :: 0 :: []) =
        some (3, .atResponse ⟨⟨83, 72⟩, 0, []⟩) ∧
      dispatchDest (fun i => i == 3) 3 = .waiter 3) ∧
    (classify (frameModemStatus :: 2 :: []) = some (0, .modemStatus 2) ∧
      dispatchDest (fun i => i == 3) 0 = .global) :=
  ⟨(readLoop_dispatch (fun i => i == 3)).1 3 83 72 0 [] (by decide) (by decide),
   (readLoop_dispatch (fun i => i == 3)).2.2.1 2 []⟩

/-! ## C4 — frame-id allocator -/

/-- Closed form of the allocation sequence: ids cycle `1, 2, ..., 255, 1, ...`. -/
theorem idAt_closed (i : Nat) : idAt i = i % 255 + 1 := by
  induction i with
  | zero => decide
  | succ n ih =>
    have hnext : idAt (n + 1) = (nextFrameID (idAt n)).2 := rfl
    rw [hnext, ih]
    simp only [nextFrameID]
    by_cases h : (n % 255 + 1 + 1) % 256 = 0
    · simp only [if_pos h]; omega
    · simp only [if_neg h]; omega

/-- C4: starting from the zero-initialised counter, no `nextFrameID` call ever
returns `0`, consecutive calls return different values, and the call after one
that returned `255` returns `1`. -/
theorem nextFrameID_spec (i : Nat) :
    idAt i ≠ 0 ∧ idAt (i + 1) ≠ idAt i ∧ (idAt i = 255 → idAt (i + 1) = 1) := by
  have h1 := idAt_closed i
  have h2 := idAt_closed (i + 1)
  refine ⟨by omega, by omega, by omega⟩

/-- C4 (witness): the 255th allocation returns 255 and wraps to 1, skipping 0. -/
theorem nextFrameID_spec_witness : idAt 254 ≠ 0 ∧ idAt 255 = 1 := by
  refine ⟨(nextFrameID_spec 254).1, (nextFrameID_spec 254).2.2 ?_⟩
  rw [idAt_closed]

/-! ## C8 — APIEnabled indexes a nil response -/

/-- C8: when the AT exchange for `AP` fails (here: the module answers with
status 1, the generic error), `atCommand` returns a nil data slice and the
error, and `APIEnabled` indexes `b[0]` on that nil slice — an
index-out-of-range run-time fault (`none`) instead of returning the error. -/
theorem apiEnabled_error_oob :
    (atCommand 0 atAPIEnable [] (.atResponse ⟨atAPIEnable, 1, []⟩)).value = [] ∧
    (atCommand 0 atAPIEnable [] (.atResponse ⟨atAPIEnable, 1, []⟩)).err =
      some .response ∧
    APIEnabled 0 (.atResponse ⟨atAPIEnable, 1, []⟩) = none := by
  decide

/-! ## C9 — reader classification indexes past short recognized frames -/

/-- C9: checksum-valid frames of recognized kinds whose payload is shorter than
the kind's fixed header pass the only length guard (`frameLen < 2`) of the
reader, and classification then indexes past the end of the payload — a
run-time fault (`none`) — instead of discarding the frame: an AT command
response with `L = 2 < 5`, a ZigBee transmit status with `L = 6 < 7`, and a
ZigBee receive packet with `L = 11 < 12`. -/
theorem classify_short_frame_oob :
    decodeFrame (encodeFrame [frameATCommandResponse, 1]) =
        some [frameATCommandResponse, 1] ∧
      classify [frameATCommandResponse, 1] = none ∧
    decodeFrame (encodeFrame [frameZigBeeTransmitStatus, 1, 2, 3, 4, 5]) =
        some [frameZigBeeTransmitStatus, 1, 2, 3, 4, 5] ∧
      classify [frameZigBeeTransmitStatus, 1, 2, 3, 4, 5] = none ∧
    decodeFrame (encodeFrame [frameZigBeeReceivePacket, 1, 2, 3, 4, 5, 6, 7, 8, 9, 10]) =
        some [frameZigBeeReceivePacket, 1, 2, 3, 4, 5, 6, 7, 8, 9, 10] ∧
      classify [frameZigBeeReceivePacket, 1, 2, 3, 4, 5, 6, 7, 8, 9, 10] = none := by
  decide

/-! ## C5 — Transmit size check -/

/-- C5: `Transmit` fails with the size error and writes nothing exactly when the
data exceeds `65536 - 20 = 65516` bytes; otherwise it writes exactly one frame
of `4 + 14 + len(data)` bytes and returns no error. -/
theorem transmit_size_spec (frameID dest net broadcastRadius options : Nat)
    (data : List Nat) :
    (65516 < data.length →
      Transmit frameID dest net broadcastRadius options data =
        ⟨frameID, [], (), some (.tooLong data.length)⟩) ∧
    (data.length ≤ 65516 →
      ∃ w, (Transmit frameID dest net broadcastRadius options data).writes = [w] ∧
        w.length = 4 + 14 + data.length ∧
        (Transmit frameID dest net broadcastRadius options data).err = none) := by
  constructor
  · intro h
    simp only [Transmit]
    rw [if_pos (by omega)]
  · intro h
    simp only [Transmit]
    rw [if_neg (by omega)]
    rw [writeFrame_ok _ (by simp; omega)]
    refine ⟨_, rfl, ?_, rfl⟩
    rw [encodeFrame_length]
    simp
    omega

/-- C5 (witness): 65520 bytes of data fail with the size error and nothing is
written; 65516 bytes succeed with a single 65534-byte write. -/
theorem transmit_size_witness :
    Transmit 0 0 0 0 0 (List.replicate 65520 7) =
      ⟨0, [], (), some (.tooLong 65520)⟩ ∧
    ∃ w, (Transmit 0 0 0 0 0 (List.replicate 65516 7)).writes = [w] ∧
      w.length = 65534 ∧ (Transmit 0 0 0 0 0 (List.replicate 65516 7)).err = none := by
  have hl1 : (List.replicate 65520 7).length = 65520 := List.length_replicate 65520 7
  have hl2 : (List.replicate 65516 7).length = 65516 := List.length_replicate 65516 7
  constructor
  · have h := (transmit_size_spec 0 0 0 0 0 (List.replicate 65520 7)).1
      (by rw [hl1]; norm_num)
    rw [hl1] at h
    exact h
  · obtain ⟨w, hw, hl, he⟩ :=
      (transmit_size_spec 0 0 0 0 0 (List.replicate 65516 7)).2 (by rw [hl2])
    rw [hl2] at hl
    norm_num at hl
    exact ⟨w, hw, hl, he⟩

/-! ## C6 — interface data rate decoding -/

/-- C6: a successful `InterfaceDataRate` call maps a decoded response value of
at most 7 through the table `[1200, 2400, 4800, 9600, 19200, 38400, 57600,
115200]` and returns larger decoded values as-is; in particular response value
`3` yields 9600 and response value `0x384` (bytes `03 84`) yields 900. -/
theorem interfaceDataRate_spec (frameID : Nat) (b : List Nat) :
    (InterfaceDataRate frameID (.atResponse ⟨atInterfaceDataRate, 0, b⟩)).err = none ∧
    (decodeUint b ≤ 7 →
      (InterfaceDataRate frameID (.atResponse ⟨atInterfaceDataRate, 0, b⟩)).value =
        [1200, 2400, 4800, 9600, 19200, 38400, 57600, 115200].getD (decodeUint b) 0) ∧
    (7 < decodeUint b →
      (InterfaceDataRate frameID (.atResponse ⟨atInterfaceDataRate, 0, b⟩)).value =
        decodeUint b) ∧
    (InterfaceDataRate frameID (.atResponse ⟨atInterfaceDataRate, 0, [3]⟩)).value = 9600 ∧
    (InterfaceDataRate frameID (.atResponse ⟨atInterfaceDataRate, 0, [3, 132]⟩)).value
      = 900 := by
  refine ⟨?_, ?_, ?_, ?_, ?_⟩
  · simp only [InterfaceDataRate, atCommand_ok]
    by_cases h : decodeUint b ≤ 7
    · rw [if_pos h]
    · rw [if_neg h]
  · intro h
    simp only [InterfaceDataRate, atCommand_ok]
    rw [if_pos h]
    rfl
  · intro h
    simp only [InterfaceDataRate, atCommand_ok]
    rw [if_neg (by omega)]
  · simp [InterfaceDataRate, atCommand_ok, decodeUint, standardDataRates]
  · simp [InterfaceDataRate, atCommand_ok, decodeUint]

/-- C6 (witness): the table mapping applied at the concrete 4-byte response
`00 00 00 03`. -/
theorem interfaceDataRate_witness :
    (InterfaceDataRate 0 (.atResponse ⟨atInterfaceDataRate, 0, [0, 0, 0, 3]⟩)).value =
      [1200, 2400, 4800, 9600, 19200, 38400, 57600, 115200].getD
        (decodeUint [0, 0, 0, 3]) 0 :=
  (interfaceDataRate_spec 0 [0, 0, 0, 3]).2.1 (by decide)

/-! ## C7 — SerialNumber issues SH then SL -/

/-- C7: with both modules' responses OK and 4 bytes long, `SerialNumber` writes
exactly two AT command frames, the first for `SH` (bytes `53 48` at offsets 5
and 6) and the second for `SL` (bytes `53 4C`), and returns
`(SH << 32) | SL`. -/
theorem serialNumber_spec (frameID : Nat) (d1 d2 : List Nat)
    (h1 : d1.length = 4) (h2 : d2.length = 4) :
    ∃ f w1 w2,
      SerialNumber frameID (.atResponse ⟨atSerialNumberHigh, 0, d1⟩)
          (.atResponse ⟨atSerialNumberLow, 0, d2⟩) =
        ⟨f, [w1, w2], (uint32BE d1 <<< 32) ||| uint32BE d2, none⟩ ∧
      w1.get? 3 = some frameATCommand ∧ w1.get? 5 = some 83 ∧ w1.get? 6 = some 72 ∧
      w2.get? 3 = some frameATCommand ∧ w2.get? 5 = some 83 ∧ w2.get? 6 = some 76 := by
  refine ⟨(nextFrameID ((nextFrameID frameID).2)).2,
    encodeFrame [frameATCommand, (nextFrameID frameID).2, 83, 72],
    encodeFrame [frameATCommand, (nextFrameID ((nextFrameID frameID).2)).2, 83, 76],
    ?_, rfl, rfl, rfl, rfl, rfl, rfl⟩
  simp only [SerialNumber, atCommand_ok]
  simp [h1, h2]
  exact ⟨rfl, rfl⟩

/-- C7 (witness): the two-write exchange at the concrete responses
`00 13 A2 00` and `40 01 02 03`. -/
theorem serialNumber_witness :
    ∃ f w1 w2,
      SerialNumber 0 (.atResponse ⟨atSerialNumberHigh, 0, [0, 19, 162, 0]⟩)
          (.atResponse ⟨atSerialNumberLow, 0, [64, 1, 2, 3]⟩) =
        ⟨f, [w1, w2], (uint32BE [0, 19, 162, 0] <<< 32) ||| uint32BE [64, 1, 2, 3],
          none⟩ ∧
      w1.get? 3 = some frameATCommand ∧ w1.get? 5 = some 83 ∧ w1.get? 6 = some 72 ∧
      w2.get? 3 = some frameATCommand ∧ w2.get? 5 = some 83 ∧ w2.get? 6 = some 76 :=
  serialNumber_spec 0 [0, 19, 162, 0] [64, 1, 2, 3] rfl rfl

/-! ## C3 — gathering requests: deadline and error returns -/

/-- Processing a prefix of accepted node-discovery responses accumulates their
parsed nodes in order. -/
theorem nodeDiscoverLoop_goods (goods : List Event) (ns : List Node)
    (tail : List Event) (h : List.Forall₂ goodNDEvent goods ns) :
    ∀ acc, nodeDiscoverLoop (goods ++ tail) acc = nodeDiscoverLoop tail (acc ++ ns) := by
  induction h with
  | nil => intro acc; simp
  | cons hg _ ih =>
    intro acc
    obtain ⟨res, rfl, hv, hp⟩ := hg
    simp only [List.cons_append, nodeDiscoverLoop, hv, hp, List.append_eq]
    rw [ih]
    simp

/-- A validation failure or malformed record stops the node-discovery loop with
the accumulated nodes and the error. -/
theorem nodeDiscoverLoop_stop_bad (bad : Event) (e : XErr) (hb : badNDEvent bad e)
    (rest : List Event) (acc : List Node) :
    nodeDiscoverLoop (bad :: rest) acc = some (acc, some e) := by
  obtain ⟨res, rfl, hcase⟩ := hb
  rcases hcase with hv | ⟨hv, hp⟩
  · simp only [nodeDiscoverLoop, hv]
  · simp only [nodeDiscoverLoop, hv, hp]

/-- A non-AT-response event makes the node-discovery loop return the empty
node list (the source's `return nil, ...`), not the accumulated one. -/
theorem nodeDiscoverLoop_stop_wrong (ev : Event) (hne : ∀ r, ev ≠ .atResponse r)
    (rest : List Event) (acc : List Node) :
    nodeDiscoverLoop (ev :: rest) acc = some ([], some .wrongFrame) := by
  cases ev with
  | atResponse r => exact absurd rfl (hne r)
  | modemStatus s => rfl
  | transmitStatus t => rfl
  | receivePacket p => rfl
  | unknownFrame raw => rfl

/-- Processing a prefix of accepted active-scan responses accumulates their
parsed devices in order. -/
theorem activeScanLoop_goods (goods : List Event) (ds : List ActiveScanDevice)
    (tail : List Event) (h : List.Forall₂ goodASEvent goods ds) :
    ∀ acc, activeScanLoop (goods ++ tail) acc = activeScanLoop tail (acc ++ ds) := by
  induction h with
  | nil => intro acc; simp
  | cons hg _ ih =>
    intro acc
    obtain ⟨res, rfl, hv, hp⟩ := hg
    simp only [List.cons_append, activeScanLoop, hv, hp, List.append_eq]
    rw [ih]
    simp

/-- A validation failure or malformed record stops the active-scan loop with
the accumulated devices and the error. -/
theorem activeScanLoop_stop_bad (bad : Event) (e : XErr) (hb : badASEvent bad e)
    (rest : List Event) (acc : List ActiveScanDevice) :
    activeScanLoop (bad :: rest) acc = (acc, some e) := by
  obtain ⟨res, rfl, hcase⟩ := hb
  rcases hcase with hv | ⟨hv, hp⟩
  · simp only [activeScanLoop, hv]
  · simp only [activeScanLoop, hv, hp]

/-- A non-AT-response event makes the active-scan loop return the empty device
list, not the accumulated one. -/
theorem activeScanLoop_stop_wrong (ev : Event) (hne : ∀ r, ev ≠ .atResponse r)
    (rest : List Event) (acc : List ActiveScanDevice) :
    activeScanLoop (ev :: rest) acc = ([], some .wrongFrame) := by
  cases ev with
  | atResponse r => exact absurd rfl (hne r)
  | modemStatus s => rfl
  | transmitStatus t => rfl
  | receivePacket p => rfl
  | unknownFrame raw => rfl

/-- C3 (counterexample): after one accepted node-discovery response has been
accumulated, a wrong-typed event (a modem status) makes `NodeDiscover` return
the empty node list with the error — not the accumulated records the claim
promises. -/
theorem gather_wrongframe_cex :
    nodeDiscoverLoop [.atResponse ⟨atNodeDiscover, 0, sampleNDData⟩] [] =
      some ([sampleNode], none) ∧
    nodeDiscoverLoop [.atResponse ⟨atNodeDiscover, 0, sampleNDData⟩,
        .modemStatus 2] [] = some ([], some .wrongFrame) :=
  ⟨rfl, rfl⟩

/-- C3 (amended): for `NodeDiscover` and `ActiveScan`, on deadline (event list
exhausted) the accumulated records are returned with no error; a mismatched AT
identifier, non-OK status, or malformed record returns the accumulated records
together with the error; but a wrong-typed (non-AT-response) event returns the
empty record list together with the error, discarding the accumulated records. -/
theorem gather_deadline_error_spec :
    (∀ goods ns, List.Forall₂ goodNDEvent goods ns →
      nodeDiscoverLoop goods [] = some (ns, none)) ∧
    (∀ goods ns bad e rest, List.Forall₂ goodNDEvent goods ns → badNDEvent bad e →
      nodeDiscoverLoop (goods ++ bad :: rest) [] = some (ns, some e)) ∧
    (∀ goods ns ev rest, List.Forall₂ goodNDEvent goods ns →
      (∀ r, ev ≠ .atResponse r) →
      nodeDiscoverLoop (goods ++ ev :: rest) [] = some ([], some .wrongFrame)) ∧
    (∀ goods ds, List.Forall₂ goodASEvent goods ds →
      activeScanLoop goods [] = (ds, none)) ∧
    (∀ goods ds bad e rest, List.Forall₂ goodASEvent goods ds → badASEvent bad e →
      activeScanLoop (goods ++ bad :: rest) [] = (ds, some e)) ∧
    (∀ goods ds ev rest, List.Forall₂ goodASEvent goods ds →
      (∀ r, ev ≠ .atResponse r) →
      activeScanLoop (goods ++ ev :: rest) [] = ([], some .wrongFrame)) := by
  refine ⟨?_, ?_, ?_, ?_, ?_, ?_⟩
  · intro goods ns h
    have := nodeDiscoverLoop_goods goods ns [] h []
    simpa using this
  · intro goods ns bad e rest h hb
    rw [nodeDiscoverLoop_goods goods ns (bad :: rest) h []]
    simpa using nodeDiscoverLoop_stop_bad bad e hb rest ns
  · intro goods ns ev rest h hne
    rw [nodeDiscoverLoop_goods goods ns (ev :: rest) h []]
    exact nodeDiscoverLoop_stop_wrong ev hne rest _
  · intro goods ds h
    have := activeScanLoop_goods goods ds [] h []
    simpa using this
  · intro goods ds bad e rest h hb
    rw [activeScanLoop_goods goods ds (bad :: rest) h []]
    simpa using activeScanLoop_stop_bad bad e hb rest ds
  · intro goods ds ev rest h hne
    rw [activeScanLoop_goods goods ds (ev :: rest) h []]
    exact activeScanLoop_stop_wrong ev hne rest _

/-- C3 (witness): one accepted node-discovery response followed by an
invalid-parameter response returns the accumulated node plus the error. -/
theorem gather_deadline_error_witness :
    nodeDiscoverLoop [.atResponse ⟨atNodeDiscover, 0, sampleNDData⟩,
        .atResponse ⟨atNodeDiscover, 3, []⟩] [] =
      some ([sampleNode], some .invalidParameter) := by
  have h := gather_deadline_error_spec.2.1
      [.atResponse ⟨atNodeDiscover, 0, sampleNDData⟩] [sampleNode]
      (.atResponse ⟨atNodeDiscover, 3, []⟩) .invalidParameter []
      (List.Forall₂.cons ⟨⟨atNodeDiscover, 0, sampleNDData⟩, rfl, rfl, rfl⟩
        List.Forall₂.nil)
      ⟨⟨atNodeDiscover, 3, []⟩, rfl, Or.inl rfl⟩
  simpa using h

/-! ## C10 — node-discovery record parsing indexes past the NUL -/

/-- C10: an 18-byte node-discovery record that passes the 18-byte minimum check
and contains a NUL terminator can leave fewer than 8 bytes after the NUL, and
the fixed-offset field reads then index out of range (`none`), both in
`parseNode` and in the full `NodeDiscover` loop on an accepted response. -/
theorem nodeDiscover_record_oob :
    sampleShortNDData.length = 18 ∧
    List.findIdx? (fun b => b = 0) (sampleShortNDData.drop 10) = some 6 ∧
    parseNode sampleShortNDData = none ∧
    nodeDiscoverLoop [.atResponse ⟨atNodeDiscover, 0, sampleShortNDData⟩] [] = none :=
  ⟨rfl, rfl, rfl, rfl⟩

end XBeeModel
